import Mathlib

/-!
Shallow embedding of the `telegram-Assistant-2` repository, a Telegram bot
that searches the YTS.mx movie index and sends `.torrent` files.

Embedded modules:
* `scraper.py`    — `WebScraper.search_files`, `WebScraper.get_magnet_link`
* `file_handler.py` — `FileHandler.download_file`
* `standalone_bot.py` — `process_message`, `handle_callback`,
  `_handle_file_selection`, and the global `user_sessions` mapping
* `config.py`     — `MAX_FILE_SIZE`, `DOWNLOAD_DIR`

Network calls are modelled by passing the JSON data of the external API
response (resp. the HTTP download response) as an explicit argument; the
Telegram side effects (send/edit/answer/send-document) are modelled as a
list of emitted actions.  Python `dict.get(key, default)` on possibly
missing JSON keys is modelled with `Option` fields plus `Option.getD`.
-/

namespace TgAssist

/-!
Python string primitives.  The Lean core `String` functions (`toLower`,
`replace`, `trim`, `splitOn`, ...) recurse on byte positions by well-founded
recursion, and so do not evaluate inside the kernel; the model instead uses
the following structurally recursive implementations over the character
data, which agree with the Python operations at every call site of the
embedded code (quality tokens and callback payloads are ASCII; Python's
full-Unicode case mapping and whitespace classes beyond
space/tab/CR/LF never come into play there).
-/

/-- Python `s.lower()` (ASCII case mapping). -/
def lowerStr (s : String) : String := ⟨s.data.map Char.toLower⟩

/-- Python `s.strip()`: remove leading and trailing whitespace. -/
def stripStr (s : String) : String :=
  ⟨((s.data.dropWhile Char.isWhitespace).reverse.dropWhile
      Char.isWhitespace).reverse⟩

/-- Python `s.startswith(p)`. -/
def startsWithStr (s p : String) : Bool := p.data.isPrefixOf s.data

/-- Python `s.endswith(p)`. -/
def endsWithStr (s p : String) : Bool := p.data.reverse.isPrefixOf s.data.reverse

/-- Python slicing `s[:n]`. -/
def takeStr (s : String) (n : Nat) : String := ⟨s.data.take n⟩

/-- Python slicing `s[n:]`. -/
def dropStr (s : String) (n : Nat) : String := ⟨s.data.drop n⟩

/-- Occurrence test on character lists. -/
def containsChars (pat : List Char) : List Char → Bool
  | [] => pat.isPrefixOf []
  | c :: cs => pat.isPrefixOf (c :: cs) || containsChars pat cs

/-- Python `pat in s` (all call sites pass a non-empty `pat`). -/
def strContains (s pat : String) : Bool := containsChars pat.data s.data

/-- Replace every (leftmost, non-overlapping) occurrence of `pat` by `rep`;
the fuel starts at the list length, which suffices since every step consumes
at least one character when `pat` is non-empty. -/
def replaceChars (pat rep : List Char) : Nat → List Char → List Char
  | _, [] => []
  | 0, l => l
  | fuel + 1, c :: cs =>
      if pat.isPrefixOf (c :: cs) then
        rep ++ replaceChars pat rep fuel ((c :: cs).drop pat.length)
      else c :: replaceChars pat rep fuel cs

/-- Python `s.replace(pat, rep)` (all call sites pass a non-empty `pat`). -/
def replaceStr (s pat rep : String) : String :=
  ⟨replaceChars pat.data rep.data s.data.length s.data⟩

/-- The segment before the first occurrence of `sep` and the remainder
after it, if `sep` occurs. -/
def splitFirstChars (sep : List Char) :
    Nat → List Char → Option (List Char × List Char)
  | _, [] => none
  | 0, _ => none
  | fuel + 1, c :: cs =>
      if sep.isPrefixOf (c :: cs) then some ([], (c :: cs).drop sep.length)
      else
        match splitFirstChars sep fuel cs with
        | some (b, a) => some (c :: b, a)
        | none => none

/-- Split on every occurrence of `sep`. -/
def splitChars (sep : List Char) : Nat → List Char → List (List Char)
  | 0, l => [l]
  | fuel + 1, l =>
      match splitFirstChars sep l.length l with
      | none => [l]
      | some (b, a) => b :: splitChars sep fuel a

/-- Python `s.split(sep)` for a non-empty separator. -/
def pySplit (s sep : String) : List String :=
  (splitChars sep.data s.data.length s.data).map String.mk

/-- Python truthiness of an `Optional[str]` value: `None` and `""` are falsy. -/
def optTruthy : Option String → Bool
  | none => false
  | some t => t != ""

/-- Python `int(s)` on a decimal string: strips surrounding whitespace, allows
one leading sign, then requires at least one digit.  (Underscore digit
grouping and non-ASCII digits are not modelled; no call site can produce
them: callback tokens come from `split("_")` and contain no underscore.) -/
def pyInt (s : String) : Option Int :=
  let t := stripStr s
  let core := if startsWithStr t "-" || startsWithStr t "+" then dropStr t 1 else t
  if core = "" then none
  else if core.data.all Char.isDigit then
    let v : Nat := core.data.foldl (fun acc c => acc * 10 + (c.toNat - 48)) 0
    if startsWithStr t "-" then some (-(v : Int)) else some (v : Int)
  else none

/-- Python list indexing `l[i]` with an `int` index: negative indices count
from the end; an index out of range raises `IndexError`, modelled as `none`. -/
def pyGet {α : Type} (l : List α) (i : Int) : Option α :=
  if i < 0 then
    if 0 ≤ i + (l.length : Int) then l[(i + (l.length : Int)).toNat]?
    else none
  else l[i.toNat]?

/-! ## Data model of the YTS.mx API response (`scraper.py`) -/

/-- One entry of a movie's `torrents` JSON array.  Fields the code reads via
`torrent.get(...)`; a missing key is `none`. -/
structure Torrent where
  quality : Option String
  size : Option String
  seeds : Option Int
  url : Option String
  hash : Option String
  deriving DecidableEq, Repr

/-- One entry of the `movies` JSON array.  The scalar JSON values `rating`,
`year` and `id` are only ever interpolated into strings by the code, so they
are modelled by their rendered string forms. -/
structure Movie where
  title_long : Option String
  rating : Option String
  year : Option String
  id : Option String
  url : Option String
  medium_cover_image : Option String
  torrents : List Torrent
  deriving DecidableEq, Repr

/-- The JSON body returned by `list_movies.json`, flattened: `status` is the
top-level status string, `movie_count` and `movies` live under the `data`
key (`data.get('data', {})` with a missing key behaves as the defaults). -/
structure ApiResponse where
  status : Option String
  movie_count : Option Int
  movies : List Movie
  deriving DecidableEq, Repr

/-- A result record built by `search_files` (the dict appended in
`scraper.py`). -/
structure SearchResult where
  title : String
  url : String
  size : String
  type : String
  seeds : Int
  movie_id : Option String
  movie_url : Option String
  quality : String
  thumbnail : Option String
  hash : String
  deriving DecidableEq, Repr

/-- `WebScraper.search_files` (scraper.py).  The first positional argument
`url` of the Python method is ignored by the code, so it is dropped here;
the network response is passed in as `resp`.  Any request/parse exception
path returns `[]` exactly like the non-`ok` status path and is not modelled
separately.  Python's `results.sort(key=..., reverse=True)` is a stable sort
by seed count descending; `List.insertionSort` with the same total preorder
is also stable, and any two stable sorts of a list under the same total
preorder coincide, so it models `list.sort` exactly. -/
def search_files (resp : ApiResponse) (query : String)
    (file_type : Option String) : List SearchResult :=
  if resp.status ≠ some "ok" then []
  else if resp.movie_count.getD 0 = 0 then []
  else
    let results := resp.movies.flatMap (fun movie =>
      let title := movie.title_long.getD "Unknown Title"
      let rating := movie.rating.getD "0"
      let year := movie.year.getD "Unknown"
      movie.torrents.filterMap (fun torrent =>
        let quality := torrent.quality.getD "Unknown"
        if optTruthy file_type &&
            (lowerStr (file_type.getD "") != lowerStr quality) then
          none
        else
          some { title := title ++ " (" ++ year ++ ") - " ++ quality ++
                   " [Rating: " ++ rating ++ "]"
                 url := torrent.url.getD ""
                 size := torrent.size.getD "Unknown size"
                 type := "video"
                 seeds := torrent.seeds.getD 0
                 movie_id := movie.id
                 movie_url := movie.url
                 quality := quality
                 thumbnail := movie.medium_cover_image
                 hash := torrent.hash.getD "" }))
    (results.insertionSort (fun a b => b.seeds ≤ a.seeds)).take 10

/-! ## Magnet links (`scraper.py`) -/

/-- The fixed tracker list of `get_magnet_link`. -/
def trackers : List String :=
  ["udp://open.demonii.com:1337/announce",
   "udp://tracker.openbittorrent.com:80",
   "udp://tracker.coppersurfer.tk:6969",
   "udp://glotorrents.pw:6969/announce",
   "udp://tracker.opentrackr.org:1337/announce",
   "udp://torrent.gresille.org:80/announce",
   "udp://p4p.arenabg.com:1337",
   "udp://tracker.leechers-paradise.org:6969"]

/-- The standard base64 alphabet. -/
def b64Alphabet : List Char :=
  "ABCDEFGHIJKLMNOPQRSTUVWXYZabcdefghijklmnopqrstuvwxyz0123456789+/".toList

/-- Character of the base64 alphabet at a 6-bit index. -/
def b64Char (n : Nat) : Char := b64Alphabet.getD n 'A'

/-- Standard base64 encoding of a byte list (Python `base64.b64encode`). -/
def base64Encode : List Nat → String
  | [] => ""
  | [a] =>
      String.mk [b64Char (a / 4), b64Char (a % 4 * 16)] ++ "=="
  | [a, b] =>
      String.mk [b64Char (a / 4), b64Char (a % 4 * 16 + b / 16),
                 b64Char (b % 16 * 4)] ++ "="
  | a :: b :: c :: rest =>
      String.mk [b64Char (a / 4), b64Char (a % 4 * 16 + b / 16),
                 b64Char (b % 16 * 4 + c / 64), b64Char (c % 64)] ++
      base64Encode rest

/-- UTF-8 bytes of a string, as naturals (Python `title.encode('utf-8')`). -/
def utf8Bytes (s : String) : List Nat :=
  (s.data.flatMap String.utf8EncodeChar).map (fun b => b.toNat)

/-- `WebScraper.get_magnet_link` (scraper.py). -/
def get_magnet_link (torrent_hash title : String) : String :=
  if torrent_hash = "" then ""
  else
    let encoded_title := base64Encode (utf8Bytes title)
    let tracker_params :=
      String.intercalate "&" (trackers.map (fun tr => "tr=" ++ tr))
    "magnet:?xt=urn:btih:" ++ torrent_hash ++ "&dn=" ++ encoded_title ++
      "&" ++ tracker_params

/-! ## File downloads (`file_handler.py`, `config.py`) -/

/-- `config.MAX_FILE_SIZE`: 50 MB in bytes. -/
def MAX_FILE_SIZE : Int := 50 * 1024 * 1024

/-- `config.DOWNLOAD_DIR` is `os.path.join(tempfile.gettempdir(),
'telegram_downloads')`; the system temp directory is modelled as `/tmp`. -/
def DOWNLOAD_DIR : String := "/tmp/telegram_downloads"

/-- The error outcomes of `download_file`.  The Python code returns message
strings; `fileTooLarge` carries the declared content length whose rendering
(`f"File too large (\x7bcontent_length / (1024*1024):.2f\x7d MB)"`) uses
floating-point formatting and is kept abstract. -/
inductive DlError where
  | urlEmpty
  | fileTooLarge (content_length : Int)
  | requestError
  | unexpectedError
  deriving DecidableEq, Repr

/-- The HTTP response seen by `download_file`: whether `raise_for_status`
passes, the raw `Content-Length` header if present, and the streamed body
bytes. -/
structure HttpResponse where
  ok : Bool
  contentLength : Option String
  body : List Nat
  deriving DecidableEq, Repr

/-- `FileHandler.download_file` (file_handler.py).  `resp` is the outcome of
`session.get` (`none` when the request itself raises), `random_string` the
10-character random name part.  Returns the Python triple
`(success, file_path, error_message)` together with the file written to disk
(`none` when nothing is written). -/
def generatedName (url random_string : String) : String :=
  if endsWithStr url ".torrent" then "movie_" ++ random_string ++ ".torrent"
  else "file_" ++ random_string

/-- The filename used by `download_file`: the caller's when truthy, else the
generated one (`if not filename`). -/
def resolvedName (url random_string : String) : Option String → String
  | some f => if f = "" then generatedName url random_string else f
  | none => generatedName url random_string

def download_file (resp : Option HttpResponse) (random_string : String)
    (url : String) (filename : Option String) :
    (Bool × Option String × Option DlError) × Option (String × List Nat) :=
  if url = "" then ((false, none, some .urlEmpty), none)
  else
    let file_path := DOWNLOAD_DIR ++ "/" ++ resolvedName url random_string filename
    match resp with
    | none => ((false, none, some .requestError), none)
    | some r =>
      if r.ok = false then ((false, none, some .requestError), none)
      else
        match (match r.contentLength with
               | none => some (0 : Int)
               | some s => pyInt s) with
        | none => ((false, none, some .unexpectedError), none)
        | some content_length =>
          if content_length > MAX_FILE_SIZE then
            ((false, none, some (.fileTooLarge content_length)), none)
          else
            ((true, some file_path, none), some (file_path, r.body))

/-! ## The bot (`standalone_bot.py`) -/

/-- A stored entry of the global `user_sessions` dict. -/
structure Session where
  search_results : List SearchResult
  query : String
  file_type : Option String
  deriving DecidableEq, Repr

/-- The global `user_sessions` mapping, keyed by Telegram user id. -/
def Sessions : Type := Int → Option Session

/-- Telegram side effects emitted while processing a text message. -/
inductive MsgAction where
  | sendMessage (text : String)
  | editMessage (text : String)
  | editMessageKeyboard (text : String) (buttons : List (String × String))
  deriving DecidableEq, Repr

/-- The quality tokens recognised by `process_message`. -/
def quality_options : List String := ["720p", "1080p", "2160p"]

/-- Lines 121–132 of `standalone_bot.py`: scan `quality_options` in order,
stop at the first whose lowercase form occurs in the lowercased message;
on a hit remove all its occurrences from the lowercased message and strip.
Returns `(file_type, message_text)` as left by the loop. -/
def parse_query (message_text : String) : Option String × String :=
  match quality_options.find?
      (fun q => strContains (lowerStr message_text) (lowerStr q)) with
  | some q =>
      (some (lowerStr q),
       stripStr (replaceStr (lowerStr message_text) (lowerStr q) ""))
  | none => (none, message_text)

/-- The progress message of `process_message` (f-string at lines 144–148). -/
def searchingText (query : String) (file_type : Option String) : String :=
  "🔍 Searching for movies with query: '" ++ query ++ "'" ++
  (match file_type with
   | some ft => if ft != "" then " (Quality: " ++ ft ++ ")" else ""
   | none => "") ++
  "...\nThis may take a moment."

/-- The no-results message of `process_message`. -/
def noResultsText (query : String) : String :=
  "❌ No results found for '" ++ query ++ "'.\n\nTry a different search term."

/-- The empty-query prompt of `process_message`. -/
def noQueryText : String :=
  "Please provide a search term.\nExample: Avengers\n" ++
  "You can also specify quality: 720p Avengers"

/-- The results header of `process_message`. -/
def foundText (n : Nat) (query : String) : String :=
  "🔍 Found " ++ toString n ++ " results for '" ++ query ++ "':\n\n"

/-- The inline keyboard built over the results: button label and
callback payload (`f"file_\x7bi\x7d"`) per result. -/
def resultButtons (results : List SearchResult) : List (String × String) :=
  results.enum.map (fun p =>
    (toString (p.1 + 1) ++ ". " ++
       (if p.2.type = "video" then "🎬" else "📁") ++ " " ++
       takeStr p.2.title 30 ++ " (" ++ p.2.size ++ ")",
     "file_" ++ toString p.1))

/-- `TelegramBot.process_message` (standalone_bot.py).  `resp` stands for
the YTS API response that `self.scraper.search_files` will see.  Returns
the updated `user_sessions` mapping and the emitted Telegram actions. -/
def process_message (resp : ApiResponse) (sessions : Sessions)
    (user_id : Int) (text : String) : Sessions × List MsgAction :=
  if startsWithStr text "/" then (sessions, [])
  else
    let message_text := stripStr text
    let parsed := parse_query message_text
    let file_type := parsed.1
    let query := stripStr parsed.2
    if query = "" then (sessions, [.sendMessage noQueryText])
    else
      let results := search_files resp query file_type
      if results = [] then
        (sessions, [.sendMessage (searchingText query file_type),
                    .editMessage (noResultsText query)])
      else
        (fun u => if u = user_id then
            some ⟨results, query, file_type⟩ else sessions u,
         [.sendMessage (searchingText query file_type),
          .editMessageKeyboard (foundText results.length query)
            (resultButtons results)])

/-- Telegram side effects emitted while handling a callback query. -/
inductive CbAction where
  | answerCallback (text : Option String)
  | editMessage (text : String)
  | download (url : String)
  | sendDocument (path : String) (caption : String)
  | cleanup (path : String)
  deriving DecidableEq, Repr

/-- The outcome of `self.file_handler.download_file` as observed by the
callback handler: the Python `(success, file_path, error_message)` triple. -/
structure DlOutcome where
  success : Bool
  path : Option String
  errorMessage : Option String

/-- The environment of `_handle_file_selection`: the outcome of downloading
a given url, and `os.path.exists`. -/
structure CbEnv where
  dl : String → DlOutcome
  fileExists : String → Bool

/-- Python `str(x)` of an `Optional[str]`: `None` renders as `"None"`. -/
def optStr : Option String → String
  | none => "None"
  | some s => s

/-- The preparing message of `_handle_file_selection`. -/
def preparingText (f : SearchResult) : String :=
  "⏳ Preparing torrent file for: " ++ f.title ++ "\nQuality: " ++ f.quality ++
  "\nSize: " ++ f.size ++ "\n\nPlease wait, this may take a moment..."

/-- The download-failure message of `_handle_file_selection`. -/
def dlFailedText (error_message : Option String) : String :=
  "❌ Failed to download torrent file: " ++ optStr error_message ++
  "\n\nPlease try another movie or search again."

/-- The sending-file message of `_handle_file_selection`. -/
def sendingText (f : SearchResult) : String :=
  "⏳ Sending torrent file...\nTitle: " ++ f.title ++ "\nQuality: " ++
  f.quality ++ "\nSize: " ++ f.size

/-- The document caption of `_handle_file_selection`. -/
def captionText (f : SearchResult) : String :=
  "🎬 Movie: " ++ f.title ++ "\nQuality: " ++ f.quality ++
  "\n\n📱 How to watch:\n1. Save this torrent file\n" ++
  "2. Go to webtor.io in your browser\n" ++
  "3. Click 'Open Torrent' and upload this file\n" ++
  "4. Click 'Open' and wait for loading\n" ++
  "5. Enjoy your movie directly in the browser!"

/-- The sent-confirmation message of `_handle_file_selection`. -/
def sentText (f : SearchResult) : String :=
  "✅ Torrent file sent!\nTitle: " ++ f.title ++ "\nQuality: " ++ f.quality ++
  "\nSize: " ++ f.size

/-- The send-failure message: the only exception raised inside the inner
`try` of the model is `ValueError("Invalid file path")`. -/
def sendErrText : String :=
  "❌ Error sending torrent file: Invalid file path\n\nPlease try another movie."

/-- The generic handler-failure message of `_handle_file_selection`
(outer `except` block). -/
def selectionErrorText : String :=
  "❌ Error processing your selection.\n\nPlease try again later."

/-- The session-expired message of `_handle_file_selection`. -/
def expiredText : String := "Search session expired. Please search again."

/-- The actions of `_handle_file_selection` from the download call onwards
(lines 253–319 of standalone_bot.py): failure edit, or sending edit plus
either document-send/confirmation or the `ValueError` path, then the
`finally` cleanup when `file_path` is truthy. -/
def afterDownload (env : CbEnv) (selected : SearchResult) : List CbAction :=
  let r := env.dl selected.url
  if r.success then
    let pathTruthy : Bool := match r.path with
      | some p => p != ""
      | none => false
    [.editMessage (sendingText selected)] ++
    (if pathTruthy && env.fileExists (r.path.getD "") then
       [.sendDocument (r.path.getD "") (captionText selected),
        .editMessage (sentText selected)]
     else
       [.editMessage sendErrText]) ++
    (if pathTruthy then [.cleanup (r.path.getD "")] else [])
  else
    [.editMessage (dlFailedText r.errorMessage)]

/-- `TelegramBot._handle_file_selection` (standalone_bot.py).  A raised
exception (`int` parse failure, `IndexError` from the list lookup) lands in
the outer `except` block, which edits in `selectionErrorText`.  The handler
never writes to `user_sessions`, so the mapping is returned unchanged. -/
def handle_file_selection (env : CbEnv) (sessions : Sessions)
    (user_id : Int) (data : String) : Sessions × List CbAction :=
  match pyInt ((pySplit data "_").getD 1 "") with
  | none => (sessions, [.editMessage selectionErrorText])
  | some file_index =>
    match sessions user_id with
    | none => (sessions, [.answerCallback (some expiredText),
                          .editMessage expiredText])
    | some sess =>
      let search_results := sess.search_results
      if (search_results.length : Int) ≤ file_index then
        (sessions, [.answerCallback (some "Invalid selection. Please search again.")])
      else
        match pyGet search_results file_index with
        | none => (sessions, [.editMessage selectionErrorText])
        | some selected =>
          (sessions,
           [.answerCallback none, .editMessage (preparingText selected),
            .download selected.url] ++ afterDownload env selected)

/-- `TelegramBot.handle_callback` (standalone_bot.py). -/
def handle_callback (env : CbEnv) (sessions : Sessions)
    (user_id : Int) (data : String) : Sessions × List CbAction :=
  if startsWithStr data "file_" then handle_file_selection env sessions user_id data
  else (sessions, [.answerCallback (some "Unknown callback")])

/-! ## Concrete data used by witnesses and counterexamples -/

/-- A 720p torrent with 5 seeds. -/
def torrentA : Torrent :=
  { quality := some "720p", size := some "1 GB", seeds := some 5,
    url := some "https://yts.mx/t/a.torrent", hash := some "aaa111" }

/-- A 1080p torrent with 9 seeds. -/
def torrentB : Torrent :=
  { quality := some "1080p", size := some "2 GB", seeds := some 9,
    url := some "https://yts.mx/t/b.torrent", hash := some "bbb222" }

/-- A sample movie carrying both torrents. -/
def movieA : Movie :=
  { title_long := some "The Matrix (1999)", rating := some "8.7",
    year := some "1999", id := some "10", url := some "https://yts.mx/m/10",
    medium_cover_image := some "https://yts.mx/c/10.jpg",
    torrents := [torrentA, torrentB] }

/-- A successful API response with one movie. -/
def respOk : ApiResponse :=
  { status := some "ok", movie_count := some 1, movies := [movieA] }

/-- A failed API response (`status` is not `"ok"`), so `search_files`
returns the empty list on it. -/
def respBad : ApiResponse :=
  { status := some "error", movie_count := some 1, movies := [movieA] }

/-- A concrete stored result record (720p). -/
def resultA : SearchResult :=
  { title := "The Matrix (1999) (1999) - 720p [Rating: 8.7]",
    url := "https://yts.mx/t/a.torrent", size := "1 GB", type := "video",
    seeds := 5, movie_id := some "10", movie_url := some "https://yts.mx/m/10",
    quality := "720p", thumbnail := some "https://yts.mx/c/10.jpg",
    hash := "aaa111" }

/-- A concrete stored result record (1080p). -/
def resultB : SearchResult :=
  { title := "The Matrix (1999) (1999) - 1080p [Rating: 8.7]",
    url := "https://yts.mx/t/b.torrent", size := "2 GB", type := "video",
    seeds := 9, movie_id := some "10", movie_url := some "https://yts.mx/m/10",
    quality := "1080p", thumbnail := some "https://yts.mx/c/10.jpg",
    hash := "bbb222" }

/-- A session left by an earlier search, holding two results. -/
def oldSession : Session := ⟨[resultA, resultB], "old", none⟩

/-- A session store in which user 7 has `oldSession`. -/
def cexSessions : Sessions := fun u => if u = 7 then some oldSession else none

/-- A session store in which user 7 has a single-result session. -/
def smallSessions : Sessions :=
  fun u => if u = 7 then some ⟨[resultA], "old", none⟩ else none

/-- A callback environment whose downloads fail and whose filesystem is
empty. -/
def env0 : CbEnv :=
  { dl := fun _ => ⟨false, none, some "download error"⟩,
    fileExists := fun _ => false }

/-! ## C2: results sorted by seeds descending, at most 10 entries -/

/-- C2: for every API response, query and quality filter, the list returned
by `search_files` is sorted by the `seeds` field in descending order
(pairwise nonincreasing) and contains at most 10 entries. -/
theorem search_results_sorted_truncated (resp : ApiResponse) (q : String)
    (ft : Option String) :
    (search_files resp q ft).Pairwise (fun a b => b.seeds ≤ a.seeds) ∧
    (search_files resp q ft).length ≤ 10 := by
  unfold search_files
  split
  · exact ⟨List.Pairwise.nil, by simp⟩
  split
  · exact ⟨List.Pairwise.nil, by simp⟩
  refine ⟨?_, ?_⟩
  · refine List.Pairwise.sublist (List.take_sublist _ _) ?_
    haveI : IsTotal SearchResult (fun a b => b.seeds ≤ a.seeds) :=
      ⟨fun a b => (Int.le_total b.seeds a.seeds)⟩
    haveI : IsTrans SearchResult (fun a b => b.seeds ≤ a.seeds) :=
      ⟨fun a b c hab hbc => Int.le_trans hbc hab⟩
    exact List.sorted_insertionSort _ _
  · simp only [List.length_take]
    omega

/-! ## C3: a non-empty quality filter is respected case-insensitively -/

/-- C3: for every non-empty quality filter passed to `search_files`, every
result record in the returned list has a `quality` field equal to the
filter, compared case-insensitively (via lowercasing, as the code does). -/
theorem search_results_quality_filtered (resp : ApiResponse) (q s : String)
    (hs : s ≠ "") :
    ∀ r ∈ search_files resp q (some s), lowerStr r.quality = lowerStr s := by
  intro r hr
  unfold search_files at hr
  split at hr
  · simp at hr
  split at hr
  · simp at hr
  have h1 := List.take_subset _ _ hr
  rw [List.mem_insertionSort] at h1
  simp only [List.mem_flatMap, List.mem_filterMap, Option.getD_some] at h1
  obtain ⟨movie, _, torrent, _, ht⟩ := h1
  split at ht
  · simp at ht
  · rename_i hcond
    have hcond2 : (optTruthy (some s) &&
        (lowerStr s != lowerStr (torrent.quality.getD "Unknown"))) = false := by
      revert hcond
      simp only [optTruthy, Option.getD_some]
      exact fun hcond => Bool.not_eq_true _ ▸ hcond
    have hq : lowerStr s = lowerStr (torrent.quality.getD "Unknown") := by
      rcases Bool.and_eq_false_iff.mp hcond2 with h | h
      · exact absurd (by simpa [optTruthy] using h) hs
      · exact bne_eq_false_iff_eq.mp h
    obtain rfl := Option.some.inj ht
    exact hq.symm

/-- C3 witness: the filter `"720P"` is non-empty, the filtered search on
`respOk` is non-empty, and every returned record's quality lowercases to
`"720p"`. -/
theorem search_results_quality_filtered_w :
    search_files respOk "matrix" (some "720P") ≠ [] ∧
    ((search_files respOk "matrix" (some "720P")).all
      (fun r => lowerStr r.quality == lowerStr "720P")) = true := by
  refine ⟨by decide, ?_⟩
  rw [List.all_eq_true]
  intro r hr
  exact beq_iff_eq.mpr
    (search_results_quality_filtered respOk "matrix" "720P" (by decide) r hr)

/-! ## C6: magnet link shape -/

/-- C6: for every title, `get_magnet_link` returns the empty string when the
hash is empty; for every non-empty hash the returned string starts with
`magnet:?xt=urn:btih:` (stated as a prefix of the character data). -/
theorem magnet_link_shape :
    (∀ title, get_magnet_link "" title = "") ∧
    (∀ h t, h ≠ "" →
      "magnet:?xt=urn:btih:".data <+: (get_magnet_link h t).data) := by
  constructor
  · intro title
    simp [get_magnet_link]
  · intro h t hh
    unfold get_magnet_link
    rw [if_neg hh]
    simp only [String.data_append, List.append_assoc]
    exact List.prefix_append _ _

/-- C6 witness: concrete instances of both halves. -/
theorem magnet_link_shape_w :
    get_magnet_link "" "The Matrix" = "" ∧
    "magnet:?xt=urn:btih:".data <+:
      (get_magnet_link "aaa111" "The Matrix").data :=
  ⟨magnet_link_shape.1 "The Matrix",
   magnet_link_shape.2 "aaa111" "The Matrix" (by decide)⟩

/-! ## C4: oversize downloads are rejected before any write -/

/-- C4: for every download whose HTTP response declares a `Content-Length`
strictly greater than 50 MB, `download_file` returns a failure carrying the
size error and no path, and no file is written to disk. -/
theorem oversize_download_rejected (r : HttpResponse) (rs url : String)
    (fn : Option String) (s : String) (n : Int)
    (hurl : url ≠ "") (hok : r.ok = true)
    (hcl : r.contentLength = some s) (hparse : pyInt s = some n)
    (hn : MAX_FILE_SIZE < n) :
    download_file (some r) rs url fn =
      ((false, none, some (.fileTooLarge n)), none) := by
  unfold download_file
  rw [if_neg hurl]
  simp only [hok, hcl, hparse, Bool.true_eq_false, if_false]
  rw [if_pos hn]

/-- C4 witness: a declared length of 52428801 bytes (50 MB + 1) is refused
and nothing is written. -/
theorem oversize_download_rejected_w :
    download_file (some ⟨true, some "52428801", [1, 2, 3]⟩) "rnd"
        "https://yts.mx/t/a.torrent" none =
      ((false, none, some (.fileTooLarge 52428801)), none) :=
  oversize_download_rejected ⟨true, some "52428801", [1, 2, 3]⟩ "rnd"
    "https://yts.mx/t/a.torrent" none "52428801" 52428801
    (by decide) rfl rfl (by decide) (by decide)

/-! ## C10: a missing Content-Length header defaults to 0 -/

/-- C10: for every download whose HTTP response carries no `Content-Length`
header, the declared length defaults to 0, the 50 MB check passes, and the
whole body is written to disk regardless of its size. -/
theorem missing_length_always_written (r : HttpResponse) (rs url : String)
    (fn : Option String) (hurl : url ≠ "") (hok : r.ok = true)
    (hcl : r.contentLength = none) :
    download_file (some r) rs url fn =
      ((true, some (DOWNLOAD_DIR ++ "/" ++ resolvedName url rs fn), none),
       some (DOWNLOAD_DIR ++ "/" ++ resolvedName url rs fn, r.body)) := by
  unfold download_file
  rw [if_neg hurl]
  simp only [hok, hcl, Bool.true_eq_false, if_false]
  rw [if_neg (by decide : ¬ MAX_FILE_SIZE < (0 : Int))]

/-- C10 witness: a header-less response with a 3-byte body is written in
full. -/
theorem missing_length_always_written_w :
    download_file (some ⟨true, none, [1, 2, 3]⟩) "rnd" "https://yts.mx/x" none =
      ((true, some (DOWNLOAD_DIR ++ "/" ++
          resolvedName "https://yts.mx/x" "rnd" none), none),
       some (DOWNLOAD_DIR ++ "/" ++ resolvedName "https://yts.mx/x" "rnd" none,
             [1, 2, 3])) :=
  missing_length_always_written ⟨true, none, [1, 2, 3]⟩ "rnd"
    "https://yts.mx/x" none (by decide) rfl rfl

/-! ## C1 (corrected): the session entry is overwritten only when the new
search returned at least one result -/

/-- C1 (amended): for every free-text search message whose search returns a
non-empty result list, the session entry for the user id is overwritten with
the new results, query and quality filter; a search returning an empty
result list leaves the session store unchanged (the code returns before the
assignment to `user_sessions`). -/
theorem session_store_update (resp : ApiResponse) (sessions : Sessions)
    (uid : Int) (text : String)
    (hcmd : startsWithStr text "/" = false)
    (hq : stripStr (parse_query (stripStr text)).2 ≠ "") :
    (search_files resp (stripStr (parse_query (stripStr text)).2)
        (parse_query (stripStr text)).1 ≠ [] →
      ∀ u, (process_message resp sessions uid text).1 u =
        if u = uid then
          some ⟨search_files resp (stripStr (parse_query (stripStr text)).2)
                  (parse_query (stripStr text)).1,
                stripStr (parse_query (stripStr text)).2,
                (parse_query (stripStr text)).1⟩
        else sessions u) ∧
    (search_files resp (stripStr (parse_query (stripStr text)).2)
        (parse_query (stripStr text)).1 = [] →
      (process_message resp sessions uid text).1 = sessions) := by
  constructor
  · intro hne u
    unfold process_message
    simp only [hcmd, Bool.false_eq_true, if_false]
    rw [if_neg hq, if_neg hne]
  · intro he
    unfold process_message
    simp only [hcmd, Bool.false_eq_true, if_false]
    rw [if_neg hq, if_pos he]

/-- C1 witness: a search with one non-empty result list overwrites user 7's
stale entry. -/
theorem session_store_update_w :
    (process_message respOk cexSessions 7 "matrix").1 7 =
      some ⟨search_files respOk "matrix" none, "matrix", none⟩ := by
  have h := (session_store_update respOk cexSessions 7 "matrix"
    (by decide) (by decide)).1 (by decide) 7
  simpa using h

/-- C1 counterexample: processing the free-text search "matrix" for user 7
against a failing API response yields an empty result list, and the session
entry keeps the previous search ("old") instead of being overwritten with
the new query — refuting the claim that the entry is overwritten on every
new search including one with an empty result list. -/
theorem session_store_update_cex :
    search_files respBad "matrix" none = [] ∧
    (process_message respBad cexSessions 7 "matrix").1 7 = some oldSession ∧
    (process_message respBad cexSessions 7 "matrix").1 7 ≠
      some ⟨search_files respBad "matrix" none, "matrix", none⟩ := by
  decide

/-! ## Helper: stripping is idempotent -/

/-- Dropping leading whitespace again after a strip changes nothing: the
stripped list is a prefix of the left-stripped list, whose head is not
whitespace. -/
theorem stripCore (p : Char → Bool) (l : List Char) :
    List.dropWhile p (List.rdropWhile p (List.dropWhile p l)) =
      List.rdropWhile p (List.dropWhile p l) := by
  rcases hB : List.rdropWhile p (List.dropWhile p l) with _ | ⟨c, cs⟩
  · simp
  · obtain ⟨t, ht⟩ := List.rdropWhile_prefix p (List.dropWhile p l)
    rw [hB] at ht
    have hA := ht.symm
    rw [List.cons_append] at hA
    have hne : List.dropWhile p l ≠ [] := by rw [hA]; simp
    have hc := List.head_dropWhile_not p l hne
    simp only [hA, List.head_cons] at hc
    simp [List.dropWhile_cons, hc]

/-- Python's `strip()` is idempotent. -/
theorem stripStr_idem (s : String) : stripStr (stripStr s) = stripStr s := by
  unfold stripStr
  apply congrArg String.mk
  show (((List.rdropWhile Char.isWhitespace
      (s.data.dropWhile Char.isWhitespace)).dropWhile
        Char.isWhitespace).reverse.dropWhile Char.isWhitespace).reverse =
    List.rdropWhile Char.isWhitespace (s.data.dropWhile Char.isWhitespace)
  rw [stripCore]
  exact List.rdropWhile_idempotent Char.isWhitespace _

/-! ## C9: quality-token extraction from free-text messages -/

/-- C9: when the (stripped) free-text message contains a quality token
(first match among 720p/1080p/2160p, case-insensitive substring), the query
echoed in the progress reply and used for the search (and stored in the
session when results are non-empty) is the lowercased message with every
occurrence of the token removed and surrounding whitespace stripped, while
the quality filter is the lowercased token; a message with no quality token
keeps its original casing (only stripped). -/
theorem query_normalization (resp : ApiResponse) (sessions : Sessions)
    (uid : Int) :
    (∀ text t,
      startsWithStr text "/" = false →
      quality_options.find?
        (fun q => strContains (lowerStr (stripStr text)) (lowerStr q)) =
          some t →
      stripStr (replaceStr (lowerStr (stripStr text)) (lowerStr t) "") ≠ "" →
      (process_message resp sessions uid text).2.head? =
        some (.sendMessage (searchingText
          (stripStr (replaceStr (lowerStr (stripStr text)) (lowerStr t) ""))
          (some (lowerStr t)))) ∧
      (process_message resp sessions uid text).1 uid =
        (if search_files resp
            (stripStr (replaceStr (lowerStr (stripStr text)) (lowerStr t) ""))
            (some (lowerStr t)) = [] then
          sessions uid
        else
          some ⟨search_files resp
                  (stripStr (replaceStr (lowerStr (stripStr text))
                    (lowerStr t) "")) (some (lowerStr t)),
                stripStr (replaceStr (lowerStr (stripStr text)) (lowerStr t) ""),
                some (lowerStr t)⟩)) ∧
    (∀ text,
      startsWithStr text "/" = false →
      quality_options.find?
        (fun q => strContains (lowerStr (stripStr text)) (lowerStr q)) =
          none →
      stripStr text ≠ "" →
      (process_message resp sessions uid text).2.head? =
        some (.sendMessage (searchingText (stripStr text) none))) := by
  constructor
  · intro text t hcmd hfind hq
    unfold process_message parse_query
    simp only [hcmd, Bool.false_eq_true, if_false, hfind, stripStr_idem]
    rw [if_neg hq]
    by_cases hres : search_files resp
        (stripStr (replaceStr (lowerStr (stripStr text)) (lowerStr t) ""))
        (some (lowerStr t)) = []
    · rw [if_pos hres, if_pos hres]
      exact ⟨rfl, rfl⟩
    · rw [if_neg hres, if_neg hres]
      exact ⟨rfl, by simp⟩
  · intro text hcmd hfind hq
    unfold process_message parse_query
    simp only [hcmd, Bool.false_eq_true, if_false, hfind, stripStr_idem]
    rw [if_neg hq]
    by_cases hres : search_files resp (stripStr text) none = []
    · rw [if_pos hres]
      rfl
    · rw [if_neg hres]
      rfl

/-- C9 witness: "720P The Matrix" is searched and echoed as query
"the matrix" with quality filter "720p"; "Avengers" (no quality token) is
searched and echoed verbatim. -/
theorem query_normalization_w :
    (process_message respOk cexSessions 7 "720P The Matrix").2.head? =
      some (.sendMessage (searchingText "the matrix" (some "720p"))) ∧
    (process_message respOk cexSessions 7 "Avengers").2.head? =
      some (.sendMessage (searchingText "Avengers" none)) := by
  constructor
  · exact ((query_normalization respOk cexSessions 7).1 "720P The Matrix"
      "720p" (by decide) (by decide) (by decide)).1
  · exact (query_normalization respOk cexSessions 7).2 "Avengers"
      (by decide) (by decide) (by decide)

/-! ## C5: out-of-range selections are acknowledged as invalid -/

/-- C5: for every file-selection callback whose parsed index is at least the
number of results in the user's current session, the handler answers with
the "Invalid selection" acknowledgment and returns, performing no download
and leaving the session store unchanged (the whole output is exactly that
one acknowledgment with the input store). -/
theorem invalid_selection_acknowledged (env : CbEnv) (sessions : Sessions)
    (uid : Int) (data : String) (i : Int) (sess : Session)
    (hpre : startsWithStr data "file_" = true)
    (hparse : pyInt ((pySplit data "_").getD 1 "") = some i)
    (hsess : sessions uid = some sess)
    (hlen : (sess.search_results.length : Int) ≤ i) :
    handle_callback env sessions uid data =
      (sessions,
       [.answerCallback (some "Invalid selection. Please search again.")]) := by
  unfold handle_callback
  simp only [hpre, if_true]
  unfold handle_file_selection
  simp only [hparse, hsess]
  rw [if_pos hlen]

/-- C5 witness: index 5 against user 7's two-result session. -/
theorem invalid_selection_acknowledged_w :
    handle_callback env0 cexSessions 7 "file_5" =
      (cexSessions,
       [.answerCallback (some "Invalid selection. Please search again.")]) :=
  invalid_selection_acknowledged env0 cexSessions 7 "file_5" 5 oldSession
    (by decide) (by decide) (by decide) (by decide)

/-! ## C7 (corrected): only payloads without the `file_` head get the
generic acknowledgment -/

/-- C7 (amended): for every inbound callback payload that does not start
with `file_`, the dispatcher responds with the generic "Unknown callback"
acknowledgment.  (A payload that starts with `file_` but whose index part is
not an integer instead raises inside `_handle_file_selection` and yields the
generic error-processing edit — see the counterexample.) -/
theorem unknown_callback_acknowledged (env : CbEnv) (sessions : Sessions)
    (uid : Int) (data : String)
    (h : startsWithStr data "file_" = false) :
    handle_callback env sessions uid data =
      (sessions, [.answerCallback (some "Unknown callback")]) := by
  unfold handle_callback
  simp only [h, Bool.false_eq_true, if_false]

/-- C7 witness: the payload "hello". -/
theorem unknown_callback_acknowledged_w :
    handle_callback env0 cexSessions 7 "hello" =
      (cexSessions, [.answerCallback (some "Unknown callback")]) :=
  unknown_callback_acknowledged env0 cexSessions 7 "hello" (by decide)

/-- C7 counterexample: the payload "file_x" is not of the recognized
`file_<integer>` form, yet the dispatcher does not answer "Unknown
callback": `int("x")` raises, and the handler emits the generic
error-processing edit instead. -/
theorem unknown_callback_acknowledged_cex :
    handle_callback env0 cexSessions 7 "file_x" =
      (cexSessions, [.editMessage selectionErrorText]) ∧
    CbAction.answerCallback (some "Unknown callback") ∉
      (handle_callback env0 cexSessions 7 "file_x").2 :=
  ⟨rfl, by decide⟩

/-! ## C8 (corrected): negative indices pass the bounds check and wrap -/

/-- C8 (amended): for every file-selection callback carrying a negative
integer index while the user's session holds enough results for Python's
negative indexing to be in range (`0 ≤ i + len`), the `file_index >=
len(search_results)` bounds check passes and the handler selects the result
counted from the end of the stored list, proceeding to download it — it
never answers "Invalid selection".  (An index below `-len` also passes the
bounds check but raises `IndexError`, yielding the generic error-processing
edit — see the counterexample.) -/
theorem negative_index_wraps (env : CbEnv) (sessions : Sessions)
    (uid : Int) (data : String) (i : Int) (sess : Session)
    (sel : SearchResult)
    (hpre : startsWithStr data "file_" = true)
    (hparse : pyInt ((pySplit data "_").getD 1 "") = some i)
    (hsess : sessions uid = some sess)
    (hneg : i < 0)
    (hrange : 0 ≤ i + (sess.search_results.length : Int))
    (hsel : sess.search_results[(i + (sess.search_results.length : Int)).toNat]? =
      some sel) :
    handle_callback env sessions uid data =
      (sessions,
       [.answerCallback none, .editMessage (preparingText sel),
        .download sel.url] ++ afterDownload env sel) := by
  unfold handle_callback
  simp only [hpre, if_true]
  unfold handle_file_selection
  simp only [hparse, hsess]
  have hlen : ¬ ((sess.search_results.length : Int) ≤ i) := by omega
  rw [if_neg hlen]
  have hpg : pyGet sess.search_results i = some sel := by
    unfold pyGet
    rw [if_pos hneg, if_pos hrange]
    exact hsel
  simp only [hpg]

/-- C8 witness: index -1 against user 7's two-result session selects the
last stored result. -/
theorem negative_index_wraps_w :
    handle_callback env0 cexSessions 7 "file_-1" =
      (cexSessions,
       [.answerCallback none, .editMessage (preparingText resultB),
        .download resultB.url] ++ afterDownload env0 resultB) :=
  negative_index_wraps env0 cexSessions 7 "file_-1" (-1) oldSession resultB
    (by decide) (by decide) (by decide) (by decide) (by decide) (by decide)

/-- C8 counterexample: with a non-empty (single-result) session, the
negative index -2 passes the bounds check but raises `IndexError` instead of
selecting a result: the handler emits only the generic error-processing
edit, downloading nothing — refuting the claim for arbitrary negative
indices. -/
theorem negative_index_wraps_cex :
    handle_callback env0 smallSessions 7 "file_-2" =
      (smallSessions, [.editMessage selectionErrorText]) ∧
    CbAction.download resultA.url ∉
      (handle_callback env0 smallSessions 7 "file_-2").2 :=
  ⟨rfl, by decide⟩

end TgAssist
